import Mathlib

/-!
Verification of the jewelry-catalog scraper backend (`jewelry_scraper.py` and
`app.py`) against its natural-language specification.

The Python code is shallowly embedded: HTML pages are modelled by the values
the CSS selectors would produce (element texts and attributes), HTTP fetching
by an oracle function from URLs to optional page contents, integer arithmetic
exactly (Python `int()` of a nonnegative quotient is `Nat` division), and the
`while` loop of `scrape_category` by a fuel-indexed step function whose
`none` result means "still looping after that much fuel".
-/

namespace Scraper

/-! ## String helpers -/

/-- Character-list prefix test: `charsMatchAt pat s` is true when `pat` occurs
at the head of `s`. Used to embed Python's `in` substring operator. -/
def charsMatchAt : List Char → List Char → Bool
  | [], _ => true
  | _ :: _, [] => false
  | p :: ps, c :: cs => p == c && charsMatchAt ps cs

/-- Substring occurrence test on character lists. -/
def charsContain : List Char → List Char → Bool
  | [], pat => pat.isEmpty
  | c :: rest, pat => charsMatchAt pat (c :: rest) || charsContain rest pat

/-- Embeds Python's `pat in s` substring test on strings. -/
def strContains (s pat : String) : Bool :=
  charsContain s.data pat.data

/-- Embeds Python's `s.startswith(pre)`. -/
def strStartsWith (s pre : String) : Bool :=
  charsMatchAt pre.data s.data

/-- Drops leading whitespace characters. -/
def dropLeadingWs : List Char → List Char
  | [] => []
  | c :: cs => if c.isWhitespace then dropLeadingWs cs else c :: cs

/-- Embeds Python's `s.strip()`: removes leading and trailing whitespace. -/
def pyStrip (s : String) : String :=
  { data := (dropLeadingWs (dropLeadingWs s.data.reverse).reverse) }

/-- Embeds Python's `s.lower()` (the texts involved are ASCII). -/
def pyLower (s : String) : String :=
  { data := s.data.map Char.toLower }

/-- Embeds the URL-resolution idiom used throughout `jewelry_scraper.py`:
`url if url.startswith('http') else BASE_URL + url`. -/
def resolveUrl (base url : String) : String :=
  if strStartsWith url "http" then url else base ++ url

/-- Python truthiness of an optional string attribute value: `None` and the
empty string are falsy. -/
def truthy : Option String → Bool
  | none => false
  | some s => !s.isEmpty

/-- Embeds Python's `a or b` on optional string values: yields `a` when `a`
is truthy, otherwise `b`. -/
def pyOr (a b : Option String) : Option String :=
  if truthy a then a else b

/-! ## Data model

A product page body is modelled by what the configured CSS selectors return:
for each single-element selector, `none` when no element matches, otherwise
`some` of the element's text; image elements carry their two source
attributes. -/

/-- Stock status, per the closed set of strings the code assigns
(`"Available"`, `"Out of Stock"`, `"In Production"`, `"Removed"`). -/
inductive StockStatus
  | Available
  | OutOfStock
  | InProduction
  | Removed
deriving DecidableEq, Repr

/-- An element matched by the `.product-gallery img` selector, with its
optional `src` and `data-src` attributes. -/
structure ImgElem where
  src : Option String
  dataSrc : Option String
deriving DecidableEq, Repr

/-- The selector view of a product page body, as consumed by
`parse_product_page`: each field holds the matched element's text (or the
attribute values, for images), `none` when the selector matches nothing. -/
structure PageBody where
  title : Option String
  sku : Option String
  price : Option String
  stock : Option String
  images : List ImgElem
  description : Option String
  materials : Option String
  dimensions : Option String
  weight : Option String
deriving DecidableEq, Repr

/-- The product record built by `parse_product_page`. The `last_updated`
wall-clock timestamp of the Python dict is ambient state and is not
modelled; no claim concerns it. -/
structure Product where
  sku : String
  title : String
  price : String
  stock_status : StockStatus
  description : String
  materials : String
  dimensions : String
  weight : String
  main_image : String
  other_images : List String
  url : String
deriving DecidableEq, Repr

/-- An anchor element matched by a link selector (`.product-item
a.product-link` or `.pagination a.next`), with its optional `href`. -/
structure AnchorElem where
  href : Option String
deriving DecidableEq, Repr

/-- The selector view of a category listing page, as consumed by
`extract_product_links` and `get_next_page_url`. -/
structure Page where
  productAnchors : List AnchorElem
  nextAnchor : Option AnchorElem
deriving DecidableEq, Repr

/-! ## `jewelry_scraper.py` operations -/

/-- Embeds `JewelryScraper.get_page` (lines 90-103). The network is an
oracle from attempt number to the outcome of that attempt (`some body` on
success, `none` on a `RequestException`). Returns the result, the number of
attempts made, and the list of sleep durations performed (in order); the
recursion argument is the number of attempts remaining, so a call with
`remaining = 0` embeds Python's `for attempt in range(0)` falling through
and returning `None`. A sleep happens only when `attempt < retries - 1`,
i.e. when further attempts remain. -/
def get_page_go (oracle : Nat → Option String) (delay : Nat) :
    Nat → Nat → Option String × Nat × List Nat
  | _, 0 => (none, 0, [])
  | attempt, remaining + 1 =>
    match oracle attempt with
    | some body => (some body, 1, [])
    | none =>
      if remaining = 0 then (none, 1, [])
      else
        let r := get_page_go oracle delay (attempt + 1) remaining
        (r.1, r.2.1 + 1, delay :: r.2.2)

/-- Embeds `get_page(url, retries, delay)`: start at attempt 0 with
`retries` attempts remaining. -/
def get_page (oracle : Nat → Option String) (retries delay : Nat) :
    Option String × Nat × List Nat :=
  get_page_go oracle delay 0 retries

/-- Embeds `JewelryScraper.extract_product_links` (lines 105-110). The list
comprehension evaluates `elem['href']` for each matched anchor, which raises
`KeyError` when the attribute is absent; the `Except` error value models
that exception escaping the function. -/
def extract_product_links (base : String) : List AnchorElem → Except String (List String)
  | [] => .ok []
  | a :: rest =>
    match a.href with
    | none => .error "KeyError: href"
    | some h =>
      match extract_product_links base rest with
      | .ok ls => .ok (resolveUrl base h :: ls)
      | .error e => .error e

/-- Embeds `JewelryScraper.get_next_page_url` (lines 112-121). The code
takes the current page URL as a parameter but never reads it: the result
depends only on the page body. `next_button.get('href')` is truthy exactly
when the attribute is present and nonempty. -/
def get_next_page_url (base : String) (page : Page) (current_url : String) : Option String :=
  match page.nextAnchor with
  | some btn =>
    match btn.href with
    | some h => if h = "" then none else some (resolveUrl base h)
    | none => none
  | none => none

/-- Embeds the stock-status cascade of `parse_product_page`
(lines 138-147): the element text is stripped and lowercased, then matched
against lowercase keywords in order; no stock element means `"Available"`. -/
def classify_stock : Option String → StockStatus
  | none => .Available
  | some raw =>
    let status_text := pyLower (pyStrip raw)
    if strContains status_text "out of stock" then .OutOfStock
    else if strContains status_text "production" || strContains status_text "manufacturing" then
      .InProduction
    else if strContains status_text "discontinued" || strContains status_text "removed" then
      .Removed
    else .Available

/-- Embeds the image collection of `parse_product_page` (lines 150-151):
`img.get('src') or img.get('data-src')` for each gallery element, keeping
only truthy values. -/
def imageUrls (imgs : List ImgElem) : List String :=
  imgs.filterMap fun img =>
    let v := pyOr img.src img.dataSrc
    if truthy v then v else none

/-- Embeds `JewelryScraper.parse_product_page` (lines 123-185): returns
`none` when the title or SKU element is missing, otherwise builds the
product record. -/
def parse_product_page (body : PageBody) (product_url : String) : Option Product :=
  match body.title, body.sku with
  | some title_text, some sku_text =>
    let images := imageUrls body.images
    some {
      sku := pyStrip sku_text
      title := pyStrip title_text
      price := (body.price.map pyStrip).getD ""
      stock_status := classify_stock body.stock
      description := (body.description.map pyStrip).getD ""
      materials := (body.materials.map pyStrip).getD ""
      dimensions := (body.dimensions.map pyStrip).getD ""
      weight := (body.weight.map pyStrip).getD ""
      main_image := images.headD ""
      other_images := images.drop 1
      url := product_url
    }
  | _, _ => none

/-- Embeds the `while current_url:` loop of `JewelryScraper.scrape_category`
(lines 197-215). `env` maps a URL to the parsed page obtained by a
successful `get_page` (`none` when the fetch failed or returned a falsy
body). The outer `Option` is fuel: `none` means the loop is still running
after `fuel` iterations; `some (.error e)` means the `KeyError` from
`extract_product_links` escaped; `some (.ok links)` is a normal return.
The advance condition `if next_url and next_url != current_url` is the
truthiness of the next URL together with the cycle guard. -/
def scrape_category_loop (env : String → Option Page) (base : String) :
    Nat → String → List String → Option (Except String (List String))
  | 0, _, _ => none
  | fuel + 1, current_url, product_links =>
    match env current_url with
    | none => some (.ok product_links)
    | some page =>
      match extract_product_links base page.productAnchors with
      | .error e => some (.error e)
      | .ok links =>
        match get_next_page_url base page current_url with
        | some next_url =>
          if next_url ≠ "" ∧ next_url ≠ current_url then
            scrape_category_loop env base fuel next_url (product_links ++ links)
          else some (.ok (product_links ++ links))
        | none => some (.ok (product_links ++ links))

/-- Embeds `JewelryScraper.scrape_category` (lines 187-218): resolve the
category path against the base URL and run the pagination loop with empty
accumulator. -/
def scrape_category (env : String → Option Page) (base : String) (fuel : Nat)
    (category_url : String) : Option (Except String (List String)) :=
  scrape_category_loop env base fuel (resolveUrl base category_url) []

/-- The crawl of a category terminates: some finite fuel makes the loop
exit (either returning links or propagating an extraction error). -/
def CrawlTerminates (env : String → Option Page) (base start : String) : Prop :=
  ∃ fuel, (scrape_category_loop env base fuel start []).isSome = true

/-- A fetch-failure-terminated traversal: `FetchChain env base u ps` says
that starting from URL `u` the pages `ps` are fetched in order, each one's
next-page link advancing to a fresh URL, until a fetch fails. -/
inductive FetchChain (env : String → Option Page) (base : String) : String → List Page → Prop
  | stop (u : String) : env u = none → FetchChain env base u []
  | step (u u' : String) (p : Page) (ps : List Page) :
      env u = some p →
      get_next_page_url base p u = some u' →
      u' ≠ "" → u' ≠ u →
      FetchChain env base u' ps →
      FetchChain env base u (p :: ps)

/-- The links a page contributes when all its product anchors carry an
`href`: each anchor's `href` resolved against the base URL. -/
def okLinks (base : String) (p : Page) : List String :=
  p.productAnchors.filterMap fun a => a.href.map (resolveUrl base)

/-- An environment in which every page's next-page link advances to a fresh
URL (the current URL with one character appended), witnessing that the
pagination loop has no page-count ceiling. -/
def forwardEnv : String → Option Page :=
  fun u => some { productAnchors := [], nextAnchor := some { href := some (u ++ "x") } }

/-! ## `app.py`: progress arithmetic -/

/-- Embeds the per-category progress computation of `scraper_thread`
(`app.py` line 125): `int((processed_categories / total_categories) * 30)`.
Python divides in floating point and `int()` truncates toward zero; on the
nonnegative values involved truncation of the exact quotient is `Nat`
division. -/
def category_progress (processed total : Nat) : Nat :=
  30 * processed / total

/-- Embeds the per-product progress computation (`app.py` line 153):
`int(30 + ((i + 1) / len(unique_links) * 60))`; truncation of the exact
value is `30 + (60 * (i + 1)) / total`. -/
def product_progress (i total : Nat) : Nat :=
  30 + 60 * (i + 1) / total

/-- Follows the spec's words for the category phase, for comparison with
the code's `category_progress`: `round(completedCategories /
totalCategories * 30)` with arithmetic rounding to the nearest integer. -/
def spec_category_progress (completed total : Nat) : ℤ :=
  round ((completed : ℚ) / total * 30)

/-- Follows the spec's words for the product phase, for comparison with the
code's `product_progress`: `30 + round(completed / totalUnique * 60)`. -/
def spec_product_progress (completed total : Nat) : ℤ :=
  30 + round ((completed : ℚ) / total * 60)

/-- The progress values written during the category phase (`app.py` lines
112-134), given each configured category's success flag in order: the
counter `processed_categories` increments and a progress write happens only
when `scrape_category` returns without raising; a category whose crawl
raises is counted as an error and skipped. -/
def categoryPhaseEmits (total : Nat) : Nat → List Bool → List Nat
  | _, [] => []
  | k, true :: rest => category_progress (k + 1) total :: categoryPhaseEmits total (k + 1) rest
  | k, false :: rest => categoryPhaseEmits total k rest

/-- The progress values written during the product phase (`app.py` lines
144-154): one write per unique link, performed before the product is
fetched, so it happens even when the iteration later degrades to a
warning. -/
def productPhaseEmits (total : Nat) : List Nat :=
  (List.range total).map fun i => product_progress i total

/-- The sequence of values written to `scraper_status["progress"]` during a
job run whose try-block runs to completion (`app.py` lines 75-209): `0` at
start, the category-phase writes, the product-phase writes, then `90`
(feed phase) and `100` (final). -/
def jobProgressList (catSucc : List Bool) (totalProducts : Nat) : List Nat :=
  0 :: (categoryPhaseEmits catSucc.length 0 catSucc ++ (productPhaseEmits totalProducts ++ [90, 100]))

/-! ## `app.py`: job-control state machine

The `/api/start` handler checks `scraper_status["status"]` (line 255)
without taking `status_lock`, then spawns the worker thread and returns; the
handler writes nothing to the status itself. The spawned worker performs
its first status write (`"Running"`, lines 81-87) later, on its own thread.
The model keeps these as separate transitions: a spawned worker stays
pending until its first write fires. -/

/-- Response of the `/api/start` endpoint: HTTP 200 with a started message,
or HTTP 400 with the "Scraper is already running" error. -/
inductive StartResponse
  | started
  | alreadyRunning
deriving DecidableEq, Repr

/-- The server state relevant to job control: the shared
`scraper_status["status"]` string, the number of spawned worker threads
that have not yet performed their first status write, and the number of
workers past that write and still running. -/
structure ServerState where
  status : String
  pendingWorkers : Nat
  runningWorkers : Nat
deriving DecidableEq, Repr

/-- The initial state: `scraper_status` starts with status `"Idle"` and no
worker thread exists. -/
def initState : ServerState :=
  { status := "Idle", pendingWorkers := 0, runningWorkers := 0 }

/-- Embeds the `/api/start` handler `start_scraper` (`app.py` lines
252-266): reject when the status string differs from `"Idle"`, otherwise
spawn a worker thread and return. The check and the spawn leave the status
string untouched — the worker's own `"Running"` write happens later, as a
separate `beginJob` transition. -/
def start_scraper (s : ServerState) : ServerState × StartResponse :=
  if s.status ≠ "Idle" then (s, .alreadyRunning)
  else ({ s with pendingWorkers := s.pendingWorkers + 1 }, .started)

/-- The status strings the worker thread writes while it is running
(`app.py` lines 81, 115, 139, 148, 184). -/
inductive Phase
  | running
  | scrapingCategory (url : String)
  | processingProducts
  | processingProduct (i n : Nat)
  | generatingFeeds
deriving DecidableEq, Repr

/-- The literal status string each phase writes, per the f-strings in
`scraper_thread`. -/
def phaseText : Phase → String
  | .running => "Running"
  | .scrapingCategory url => "Scraping category: " ++ url
  | .processingProducts => "Processing products"
  | .processingProduct i n => "Processing product " ++ toString i ++ "/" ++ toString n
  | .generatingFeeds => "Generating feeds"

/-- Transitions of the job-control state: an `/api/start` request (unlocked
check, then spawn, no status write), a spawned worker's first status write
(`beginJob`, setting `"Running"`), a phase-string write by a running
worker, or a worker's terminal write (status back to `"Idle"`) together
with its exit. Each worker write runs under `status_lock` and so is one
transition. -/
inductive JobEvent
  | startReq
  | beginJob
  | setPhase (p : Phase)
  | finishJob
deriving DecidableEq, Repr

/-- One step of the job-control state machine. -/
def step : ServerState → JobEvent → ServerState
  | s, .startReq => (start_scraper s).1
  | s, .beginJob =>
    if s.pendingWorkers ≠ 0 then
      { status := "Running", pendingWorkers := s.pendingWorkers - 1,
        runningWorkers := s.runningWorkers + 1 }
    else s
  | s, .setPhase p =>
    if s.runningWorkers ≠ 0 then { s with status := phaseText p } else s
  | s, .finishJob =>
    if s.runningWorkers ≠ 0 then
      { s with status := "Idle", runningWorkers := s.runningWorkers - 1 }
    else s

/-- The server state reached after a sequence of events from the initial
state. -/
def runEvents (es : List JobEvent) : ServerState :=
  es.foldl step initState

/-! ## Concrete instances used by witnesses and counterexamples -/

/-- A product page whose stock element reads "OUT of Stock" in mixed case. -/
def c1Body : PageBody :=
  { title := some "Ring", sku := some "R-1", price := none,
    stock := some "  OUT of Stock soon  ", images := [], description := none,
    materials := none, dimensions := none, weight := none }

/-- The product `parse_product_page` builds from `c1Body`. -/
def c1Product : Product :=
  { sku := "R-1", title := "Ring", price := "", stock_status := .OutOfStock,
    description := "", materials := "", dimensions := "", weight := "",
    main_image := "", other_images := [], url := "http://p" }

/-- A product page with both required elements present. -/
def c8Body : PageBody :=
  { title := some " Necklace ", sku := some "N-2", price := some "12 $",
    stock := none, images := [], description := none,
    materials := none, dimensions := none, weight := none }

/-- A listing page whose next-page anchor points at `http://cat` itself. -/
def c2Page : Page :=
  { productAnchors := [], nextAnchor := some { href := some "http://cat" } }

/-- A listing page carrying a product anchor without `href`, on which
`extract_product_links` raises. -/
def c9BadPage : Page :=
  { productAnchors := [{ href := none }],
    nextAnchor := some { href := some "http://nxt" } }

/-- An environment serving `c9BadPage` at the category URL and failing
everywhere else. -/
def c9Env : String → Option Page :=
  fun u => if u = "http://cat" then some c9BadPage else none

/-- First listing page of a well-formed two-page category. -/
def c9PageA : Page :=
  { productAnchors := [{ href := some "http://p1" }, { href := some "/p2" }],
    nextAnchor := some { href := some "/page2" } }

/-- Second listing page of the well-formed category; its next link points
at a third page whose fetch will fail. -/
def c9PageB : Page :=
  { productAnchors := [{ href := some "http://p3" }],
    nextAnchor := some { href := some "/page3" } }

/-- An environment serving the two well-formed pages and failing on the
third fetch. -/
def c9GoodEnv : String → Option Page :=
  fun u =>
    if u = "http://cat" then some c9PageA
    else if u = "http://base/page2" then some c9PageB
    else none

/-! ## Theorems -/

/-- C1: for every product page body whose extraction yields a product, the
stock status is determined by case-insensitive substring match on the stock
element's text (the code strips and lowercases it) tested in order: "out of
stock" yields OutOfStock; otherwise "production" or "manufacturing" yields
InProduction; otherwise "discontinued" or "removed" yields Removed;
otherwise Available; and with no stock-status element the status is
Available. -/
theorem C1_stock_classification (body : PageBody) (url : String) (p : Product)
    (hp : parse_product_page body url = some p) :
    (body.stock = none → p.stock_status = .Available) ∧
    (∀ t, body.stock = some t →
      (strContains (pyLower (pyStrip t)) "out of stock" = true →
        p.stock_status = .OutOfStock) ∧
      (strContains (pyLower (pyStrip t)) "out of stock" = false →
        (strContains (pyLower (pyStrip t)) "production" ||
          strContains (pyLower (pyStrip t)) "manufacturing") = true →
        p.stock_status = .InProduction) ∧
      (strContains (pyLower (pyStrip t)) "out of stock" = false →
        (strContains (pyLower (pyStrip t)) "production" ||
          strContains (pyLower (pyStrip t)) "manufacturing") = false →
        (strContains (pyLower (pyStrip t)) "discontinued" ||
          strContains (pyLower (pyStrip t)) "removed") = true →
        p.stock_status = .Removed) ∧
      (strContains (pyLower (pyStrip t)) "out of stock" = false →
        (strContains (pyLower (pyStrip t)) "production" ||
          strContains (pyLower (pyStrip t)) "manufacturing") = false →
        (strContains (pyLower (pyStrip t)) "discontinued" ||
          strContains (pyLower (pyStrip t)) "removed") = false →
        p.stock_status = .Available)) := by
  have hs : p.stock_status = classify_stock body.stock := by
    rcases ht : body.title with _ | a <;> rcases hk : body.sku with _ | b <;>
      simp [parse_product_page, ht, hk] at hp
    rw [← hp]
  constructor
  · intro h0
    rw [hs, h0]
    rfl
  · intro t ht'
    rw [hs, ht']
    refine ⟨fun h1 => ?_, fun h1 h2 => ?_, fun h1 h2 h3 => ?_, fun h1 h2 h3 => ?_⟩
    · simp [classify_stock, h1]
    · simp [classify_stock, h1, h2]
    · simp [classify_stock, h1, h2, h3]
    · simp [classify_stock, h1, h2, h3]

/-- C1 witness: a body whose stock text is "  OUT of Stock soon  " is
classified OutOfStock. -/
theorem C1_stock_classification_witness :
    parse_product_page c1Body "http://p" = some c1Product ∧
    c1Product.stock_status = StockStatus.OutOfStock := by
  have h : parse_product_page c1Body "http://p" = some c1Product := by decide
  exact ⟨h, ((C1_stock_classification c1Body "http://p" c1Product h).2
    "  OUT of Stock soon  " rfl).1 (by decide)⟩

/-- C8: extraction fails closed: `parse_product_page` returns `none`
whenever the title or SKU element is absent, and every product it returns
carries the stripped text of both required elements. -/
theorem C8_required_fields (body : PageBody) (url : String) :
    ((body.title = none ∨ body.sku = none) → parse_product_page body url = none) ∧
    (∀ p, parse_product_page body url = some p →
      ∃ t s, body.title = some t ∧ body.sku = some s ∧
        p.title = pyStrip t ∧ p.sku = pyStrip s) := by
  constructor
  · intro h
    rcases h with h | h
    · rcases hs : body.sku with _ | s <;> simp [parse_product_page, h, hs]
    · rcases ht : body.title with _ | t <;> simp [parse_product_page, h, ht]
  · intro p hp
    rcases ht : body.title with _ | t <;> rcases hs : body.sku with _ | s <;>
      simp [parse_product_page, ht, hs] at hp
    exact ⟨t, s, rfl, rfl, by rw [← hp], by rw [← hp]⟩

/-- C8 witness: removing the title element makes extraction return `none`,
while the intact `c1Body` yields a product carrying both fields. -/
theorem C8_required_fields_witness :
    parse_product_page { c8Body with title := none } "http://p" = none ∧
    (∃ t s, c1Body.title = some t ∧ c1Body.sku = some s ∧
      c1Product.title = pyStrip t ∧ c1Product.sku = pyStrip s) :=
  ⟨(C8_required_fields { c8Body with title := none } "http://p").1 (Or.inl rfl),
   (C8_required_fields c1Body "http://p").2 c1Product (by decide)⟩

/-- C2 (amended): `get_next_page_url` returns `none` exactly when the body
has no next-page anchor or the anchor's `href` is absent or empty; with a
nonempty `href` it returns the resolved URL without consulting the current
page URL — in particular it returns the current URL itself when the link
points back to it. The cycle guard lives in the caller: when the extracted
next URL equals the current URL, the loop of `scrape_category` stops and
returns the accumulated links. -/
theorem C2_next_page_and_cycle_guard (base : String) (page : Page) (current_url : String) :
    (page.nextAnchor = none → get_next_page_url base page current_url = none) ∧
    (∀ a, page.nextAnchor = some a → (a.href = none ∨ a.href = some "") →
      get_next_page_url base page current_url = none) ∧
    (∀ a h, page.nextAnchor = some a → a.href = some h → h ≠ "" →
      get_next_page_url base page current_url = some (resolveUrl base h)) ∧
    (∀ env fuel links acc, env current_url = some page →
      extract_product_links base page.productAnchors = Except.ok links →
      get_next_page_url base page current_url = some current_url →
      scrape_category_loop env base (fuel + 1) current_url acc =
        some (.ok (acc ++ links))) := by
  refine ⟨?_, ?_, ?_, ?_⟩
  · intro h
    simp [get_next_page_url, h]
  · intro a ha hh
    rcases hh with hh | hh <;> simp [get_next_page_url, ha, hh]
  · intro a h ha hh hne
    simp [get_next_page_url, ha, hh, hne]
  · intro env fuel links acc henv hx hg
    simp [scrape_category_loop, henv, hx, hg]

/-- C2 counterexample: a next-page anchor resolving to the current page URL
makes `get_next_page_url` return that URL, not `none` as claimed. -/
theorem C2_counterexample :
    get_next_page_url "http://base" c2Page "http://cat" ≠ none ∧
    get_next_page_url "http://base" c2Page "http://cat" = some "http://cat" := by
  decide

/-- C2 witness: with the next link of `c2Page` pointing back at the current
URL, one iteration of the category loop stops and returns the accumulator. -/
theorem C2_next_page_and_cycle_guard_witness :
    scrape_category_loop (fun u => if u = "http://cat" then some c2Page else none)
      "http://base" 1 "http://cat" [] = some (.ok ([] ++ [])) :=
  (C2_next_page_and_cycle_guard "http://base" c2Page "http://cat").2.2.2
    (fun u => if u = "http://cat" then some c2Page else none) 0 [] []
    (by decide) rfl (by decide)

/-- C10: link extraction is total exactly under the precondition that every
matched anchor carries an `href`: with it, `extract_product_links` returns
a list of the same length as the anchor list; an anchor without `href`
reaches the raising branch (`KeyError`). -/
theorem C10_extract_links_href_precondition :
    (∀ base elems, (∀ a ∈ elems, a.href.isSome = true) →
      ∃ l, extract_product_links base elems = Except.ok l ∧
        l.length = elems.length) ∧
    extract_product_links "http://base" [{ href := none }] =
      Except.error "KeyError: href" := by
  constructor
  · intro base elems
    induction elems with
    | nil => exact fun _ => ⟨[], rfl, rfl⟩
    | cons a rest ih =>
      intro h
      have ha := h a (by simp)
      rcases hh : a.href with _ | v
      · rw [hh] at ha
        cases ha
      · obtain ⟨l, hl, hlen⟩ := ih (fun x hx => h x (by simp [hx]))
        refine ⟨resolveUrl base v :: l, ?_, by simp [hlen]⟩
        simp [extract_product_links, hh, hl]
  · rfl

/-- C10 witness: a singleton anchor list whose anchor has an `href`
extracts to a singleton link list. -/
theorem C10_extract_links_href_precondition_witness :
    ∃ l, extract_product_links "http://base" [{ href := some "/ring-1" }] =
      Except.ok l ∧ l.length = 1 :=
  C10_extract_links_href_precondition.1 "http://base"
    [{ href := some "/ring-1" }] (by decide)

/-- Behaviour of the retry loop from an arbitrary starting attempt:
attempts are bounded by the remaining budget, every sleep is the constant
delay, and an all-failing oracle exhausts the budget and yields `none`. -/
theorem get_page_go_spec (oracle : Nat → Option String) (delay : Nat) :
    ∀ remaining attempt,
      (get_page_go oracle delay attempt remaining).2.1 ≤ remaining ∧
      (∀ d ∈ (get_page_go oracle delay attempt remaining).2.2, d = delay) ∧
      ((∀ i, oracle i = none) →
        get_page_go oracle delay attempt remaining =
          (none, remaining, List.replicate (remaining - 1) delay)) := by
  intro remaining
  induction remaining with
  | zero =>
    intro attempt
    exact ⟨Nat.le_refl 0, by simp [get_page_go], fun _ => rfl⟩
  | succ m ih =>
    intro attempt
    rcases ho : oracle attempt with _ | body
    · by_cases hm : m = 0
      · subst hm
        refine ⟨?_, ?_, ?_⟩ <;> simp [get_page_go, ho]
      · have ihs := ih (attempt + 1)
        refine ⟨?_, ?_, ?_⟩
        · simp only [get_page_go, ho, if_neg hm]
          exact Nat.succ_le_succ ihs.1
        · simp only [get_page_go, ho, if_neg hm]
          intro d hd
          rcases List.mem_cons.1 hd with rfl | hd
          · rfl
          · exact ihs.2.1 d hd
        · intro hall
          simp only [get_page_go, ho, if_neg hm]
          rw [ihs.2.2 hall]
          rcases m with _ | k
          · exact absurd rfl hm
          · rfl
    · refine ⟨?_, ?_, ?_⟩
      · simp only [get_page_go, ho]
        omega
      · simp [get_page_go, ho]
      · intro hall
        rw [hall attempt] at ho
        cases ho

/-- C5: `get_page` attempts the request at most `retries` times, every
sleep between consecutive failed attempts is the same constant `delay`, and
when every attempt fails it makes exactly `retries` attempts, sleeps
`retries - 1` times, and returns `none` — a failure signal to the caller
rather than a propagated exception (the embedding is total). -/
theorem C5_fetch_retry (oracle : Nat → Option String) (retries delay : Nat) :
    (get_page oracle retries delay).2.1 ≤ retries ∧
    (∀ d ∈ (get_page oracle retries delay).2.2, d = delay) ∧
    ((∀ i, oracle i = none) →
      get_page oracle retries delay = (none, retries, List.replicate (retries - 1) delay)) :=
  get_page_go_spec oracle delay retries 0

/-- C5 witness: with every attempt failing and the default budget of 3
attempts with delay 2, the fetch makes 3 attempts, sleeps twice, and
returns the failure signal. -/
theorem C5_fetch_retry_witness :
    (get_page (fun _ => none) 3 2).2.1 ≤ 3 ∧
    get_page (fun _ => none) 3 2 = (none, 3, List.replicate 2 2) :=
  ⟨(C5_fetch_retry (fun _ => none) 3 2).1,
   (C5_fetch_retry (fun _ => none) 3 2).2.2 (fun _ => rfl)⟩

/-- C4 (amended): the progress written by `scraper_thread` is the
truncation (floor) of the exact percentage, not its arithmetic rounding:
after k of n categories it equals the floor of k/n*30, and on product i of
t (m = i+1 completed) it equals 30 plus the floor of m/t*60. -/
theorem C4_progress_truncates (k n i t : Nat) :
    (category_progress k n : ℤ) = ⌊(k : ℚ) / n * 30⌋ ∧
    (product_progress i t : ℤ) = 30 + ⌊((i + 1 : Nat) : ℚ) / t * 60⌋ := by
  constructor
  · have h1 : (k : ℚ) / n * 30 = ((30 * k : Nat) : ℚ) / ((n : Nat) : ℚ) := by
      push_cast
      ring
    rw [h1, ← Int.natCast_floor_eq_floor (by positivity), Nat.floor_div_nat,
      Nat.floor_natCast]
    rfl
  · have h1 : ((i + 1 : Nat) : ℚ) / t * 60 = ((60 * (i + 1) : Nat) : ℚ) / ((t : Nat) : ℚ) := by
      push_cast
      ring
    rw [h1, ← Int.natCast_floor_eq_floor (by positivity), Nat.floor_div_nat,
      Nat.floor_natCast]
    unfold product_progress
    push_cast
    ring

/-- C4 counterexample: after 1 of 4 categories the code reports 7
(truncation of 7.5) while the claimed rounding yields 8; on the first of 8
products the code reports 37 while the claimed rounding yields 38. -/
theorem C4_counterexample :
    (category_progress 1 4 : ℤ) = 7 ∧ spec_category_progress 1 4 = 8 ∧
    (product_progress 0 8 : ℤ) = 37 ∧ spec_product_progress 1 8 = 38 := by
  refine ⟨by norm_num [category_progress], ?_, by norm_num [product_progress], ?_⟩
  · unfold spec_category_progress
    norm_num [round_eq]
  · unfold spec_product_progress
    norm_num [round_eq]

/-- C3 (amended): the pagination loop of `scrape_category` terminates via
the cycle guard whenever every fetched page's next-page extraction yields
nothing or the page's own URL: one unit of fuel suffices. There is no
page-count ceiling: with next links forever advancing to fresh URLs the
loop runs forever (see the counterexample). -/
theorem C3_cycle_guard_terminates (env : String → Option Page) (base : String)
    (hcycle : ∀ u page, env u = some page →
      get_next_page_url base page u = none ∨ get_next_page_url base page u = some u) :
    ∀ start, CrawlTerminates env base start := by
  intro start
  refine ⟨1, ?_⟩
  rcases he : env start with _ | page
  · simp [scrape_category_loop, he]
  · rcases hx : extract_product_links base page.productAnchors with e | links
    · simp [scrape_category_loop, he, hx]
    · rcases hcycle start page he with hn | hs
      · simp [scrape_category_loop, he, hx, hn]
      · simp [scrape_category_loop, he, hx, hs]

/-- C3 witness: an environment where every fetch fails satisfies the cycle
hypothesis vacuously, and the crawl of a category terminates. -/
theorem C3_cycle_guard_terminates_witness :
    CrawlTerminates (fun _ => none) "http://base" "/necklaces" :=
  C3_cycle_guard_terminates (fun _ => none) "http://base"
    (fun _ _ h => Option.noConfusion h) "/necklaces"

/-- In `forwardEnv` every iteration advances to a strictly longer URL, so
the loop never exits, whatever the fuel. -/
theorem forwardEnv_loop_none : ∀ fuel u acc,
    scrape_category_loop forwardEnv "" fuel u acc = none := by
  intro fuel
  induction fuel with
  | zero => intro u acc; rfl
  | succ m ih =>
    intro u acc
    have hlen : ∀ v : String, (v ++ "x").length = v.length + 1 := by
      intro v
      rw [String.length_append]
      rfl
    have hne : u ++ "x" ≠ u := by
      intro h
      have h2 := congrArg String.length h
      rw [hlen] at h2
      omega
    have hne2 : u ++ "x" ≠ "" := by
      intro h
      have h2 := congrArg String.length h
      rw [hlen] at h2
      have h3 : ("" : String).length = 0 := rfl
      omega
    have hres : resolveUrl "" (u ++ "x") = u ++ "x" := by
      unfold resolveUrl
      split
      · rfl
      · rfl
    show scrape_category_loop forwardEnv "" (m + 1) u acc = none
    simp only [scrape_category_loop, forwardEnv, extract_product_links,
      get_next_page_url, if_neg hne2, hres]
    rw [if_pos ⟨hne2, hne⟩]
    exact ih (u ++ "x") (acc ++ [])

/-- C3 counterexample: with every next link pointing forward to a fresh
URL, the crawl does not terminate — the claimed page-count ceiling does not
exist in the code. -/
theorem C3_counterexample : ¬ CrawlTerminates forwardEnv "" "http://start" := by
  rintro ⟨fuel, h⟩
  rw [forwardEnv_loop_none fuel "http://start" []] at h
  cases h

/-- When every anchor carries an `href`, extraction succeeds with the
resolved links in order. -/
theorem extract_ok_of_href (base : String) :
    ∀ anchors : List AnchorElem, (∀ a ∈ anchors, a.href.isSome = true) →
      extract_product_links base anchors =
        .ok (anchors.filterMap fun a => a.href.map (resolveUrl base)) := by
  intro anchors
  induction anchors with
  | nil => exact fun _ => rfl
  | cons a rest ih =>
    intro h
    have ha := h a (by simp)
    rcases hh : a.href with _ | v
    · rw [hh] at ha
      cases ha
    · simp [extract_product_links, hh, ih (fun x hx => h x (by simp [hx]))]

/-- C9 (amended): when a fetch fails after a chain of successfully fetched
pages, on each of which every product anchor carries an `href`, the loop of
`scrape_category` stops at the failed fetch and returns exactly the links
accumulated from the fetched pages, in order, with no escaping error.
Without the `href` precondition the loop can instead propagate a `KeyError`
(see the counterexample). -/
theorem C9_partial_results (env : String → Option Page) (base u : String)
    (ps : List Page) (hchain : FetchChain env base u ps)
    (hhref : ∀ p ∈ ps, ∀ a ∈ p.productAnchors, a.href.isSome = true) :
    ∀ fuel acc, ps.length < fuel →
      scrape_category_loop env base fuel u acc =
        some (.ok (acc ++ (ps.map (okLinks base)).flatten)) := by
  induction hchain with
  | stop v hv =>
    intro fuel acc hf
    rcases fuel with _ | m
    · omega
    · simp [scrape_category_loop, hv]
  | step v v' p ps' henv hnext hne hne' hrest ih =>
    intro fuel acc hf
    rcases fuel with _ | m
    · omega
    · have hx : extract_product_links base p.productAnchors = .ok (okLinks base p) :=
        extract_ok_of_href base p.productAnchors (hhref p (by simp))
      have ihm := ih (fun q hq => hhref q (by simp [hq])) m (acc ++ okLinks base p)
        (by simpa using Nat.lt_of_succ_lt_succ hf)
      simp only [scrape_category_loop, henv, hx, hnext]
      rw [if_pos ⟨hne, hne'⟩, ihm]
      simp [List.append_assoc]

/-- C9 witness: a two-page category whose third fetch fails returns the
four links of the two fetched pages, in order. -/
theorem C9_partial_results_witness :
    scrape_category_loop c9GoodEnv "http://base" 3 "http://cat" [] =
      some (.ok ([] ++ ([c9PageA, c9PageB].map (okLinks "http://base")).flatten)) :=
  C9_partial_results c9GoodEnv "http://base" "http://cat" [c9PageA, c9PageB]
    (FetchChain.step "http://cat" "http://base/page2" c9PageA [c9PageB]
      (by decide) (by decide) (by decide) (by decide)
      (FetchChain.step "http://base/page2" "http://base/page3" c9PageB []
        (by decide) (by decide) (by decide) (by decide)
        (FetchChain.stop "http://base/page3" (by decide))))
    (by decide) 3 [] (by decide)

/-- C9 counterexample: a successfully fetched page carrying a product
anchor without `href` makes the crawl propagate a `KeyError` instead of
returning the accumulated links, refuting the unconditional claim. -/
theorem C9_counterexample :
    scrape_category_loop c9Env "http://base" 2 "http://cat" [] =
      some (.error "KeyError: href") := rfl

/-- Division bound used by the progress lemmas: `c * j / total ≤ c`
whenever `j ≤ total`. -/
theorem mul_div_le_of_le (c j total : Nat) (h : j ≤ total) :
    c * j / total ≤ c := by
  have h1 : c * j / total ≤ c * total / total :=
    Nat.div_le_div_right (Nat.mul_le_mul_left c h)
  rcases total with _ | m
  · simp
  · rwa [Nat.mul_div_cancel _ (Nat.succ_pos m)] at h1

/-- The category-phase progress value is monotone in the completed count. -/
theorem category_progress_mono (j1 j2 total : Nat) (h : j1 ≤ j2) :
    category_progress j1 total ≤ category_progress j2 total :=
  Nat.div_le_div_right (Nat.mul_le_mul_left 30 h)

/-- The category-phase progress value never exceeds 30. -/
theorem category_progress_le_30 (j total : Nat) (h : j ≤ total) :
    category_progress j total ≤ 30 :=
  mul_div_le_of_le 30 j total h

/-- The product-phase progress value is monotone in the product index. -/
theorem product_progress_mono (i1 i2 total : Nat) (h : i1 ≤ i2) :
    product_progress i1 total ≤ product_progress i2 total := by
  unfold product_progress
  have h2 : 60 * (i1 + 1) / total ≤ 60 * (i2 + 1) / total :=
    Nat.div_le_div_right (Nat.mul_le_mul_left 60 (Nat.succ_le_succ h))
  omega

/-- Category-phase writes are chained non-decreasing and bounded below by
the progress at the current counter. -/
theorem categoryPhaseEmits_chain_lb (total : Nat) :
    ∀ l k, (categoryPhaseEmits total k l).Chain' (· ≤ ·) ∧
      ∀ x ∈ categoryPhaseEmits total k l, category_progress (k + 1) total ≤ x := by
  intro l
  induction l with
  | nil =>
    intro k
    exact ⟨List.chain'_nil, by simp [categoryPhaseEmits]⟩
  | cons ok rest ih =>
    intro k
    cases ok with
    | false =>
      refine ⟨?_, ?_⟩
      · simp only [categoryPhaseEmits]
        exact (ih k).1
      · intro x hx
        simp only [categoryPhaseEmits] at hx
        exact (ih k).2 x hx
    | true =>
      have ih1 := ih (k + 1)
      refine ⟨?_, ?_⟩
      · simp only [categoryPhaseEmits]
        rw [List.chain'_cons']
        refine ⟨?_, ih1.1⟩
        intro y hy
        exact le_trans (category_progress_mono (k + 1) (k + 2) total (by omega))
          (ih1.2 y (List.mem_of_mem_head? hy))
      · intro x hx
        simp only [categoryPhaseEmits, List.mem_cons] at hx
        rcases hx with rfl | hx
        · exact Nat.le_refl _
        · exact le_trans (category_progress_mono (k + 1) (k + 2) total (by omega))
            (ih1.2 x hx)

/-- Category-phase writes never exceed 30 while the counter stays within
the category total. -/
theorem categoryPhaseEmits_le_30 (total : Nat) :
    ∀ l k, k + l.count true ≤ total →
      ∀ x ∈ categoryPhaseEmits total k l, x ≤ 30 := by
  intro l
  induction l with
  | nil =>
    intro k _ x hx
    simp [categoryPhaseEmits] at hx
  | cons ok rest ih =>
    intro k hk x hx
    cases ok with
    | false =>
      simp only [categoryPhaseEmits] at hx
      have hcf : (false :: rest).count true = rest.count true := by
        simp [List.count_cons]
      rw [hcf] at hk
      exact ih k hk x hx
    | true =>
      have hct : (true :: rest).count true = rest.count true + 1 := by
        simp [List.count_cons]
      rw [hct] at hk
      simp only [categoryPhaseEmits, List.mem_cons] at hx
      rcases hx with rfl | hx
      · exact category_progress_le_30 (k + 1) total (by omega)
      · exact ih (k + 1) (by omega) x hx

/-- Product-phase writes are chained non-decreasing. -/
theorem productPhaseEmits_chain (total : Nat) :
    (productPhaseEmits total).Chain' (· ≤ ·) := by
  unfold productPhaseEmits
  apply List.Pairwise.chain'
  rw [List.pairwise_map]
  exact (List.pairwise_lt_range total).imp
    (fun hab => product_progress_mono _ _ total (Nat.le_of_lt hab))

/-- Product-phase writes are at least 30. -/
theorem productPhaseEmits_ge_30 (total : Nat) :
    ∀ x ∈ productPhaseEmits total, 30 ≤ x := by
  intro x hx
  unfold productPhaseEmits at hx
  rcases List.mem_map.1 hx with ⟨i, _, rfl⟩
  exact Nat.le_add_right 30 _

/-- Product-phase writes never exceed 90. -/
theorem productPhaseEmits_le_90 (total : Nat) :
    ∀ x ∈ productPhaseEmits total, x ≤ 90 := by
  intro x hx
  unfold productPhaseEmits at hx
  rcases List.mem_map.1 hx with ⟨i, hi, rfl⟩
  have hi2 : i + 1 ≤ total := List.mem_range.1 hi
  have := mul_div_le_of_le 60 (i + 1) total hi2
  unfold product_progress
  omega

/-- C7: within one completed job run, the sequence of values written to the
progress field is non-decreasing, for every pattern of per-category
successes and every product count; consecutive status reads therefore never
observe a decrease. -/
theorem C7_progress_monotone (catSucc : List Bool) (totalProducts : Nat) :
    (jobProgressList catSucc totalProducts).Chain' (· ≤ ·) := by
  unfold jobProgressList
  rw [List.chain'_cons']
  refine ⟨fun y _ => Nat.zero_le y, ?_⟩
  have hcat := categoryPhaseEmits_chain_lb catSucc.length catSucc 0
  have hcat30 : ∀ x ∈ categoryPhaseEmits catSucc.length 0 catSucc, x ≤ 30 :=
    categoryPhaseEmits_le_30 catSucc.length catSucc 0
      (by simpa using List.count_le_length true catSucc)
  apply List.Chain'.append hcat.1
  · apply List.Chain'.append (productPhaseEmits_chain totalProducts)
    · rw [List.chain'_cons]
      exact ⟨by omega, List.chain'_singleton 100⟩
    · intro x hx y hy
      have hx90 := productPhaseEmits_le_90 totalProducts x (List.mem_of_mem_getLast? hx)
      have hy90 : y = 90 := by
        simp at hy
        omega
      omega
  · intro x hx y hy
    have hx30 := hcat30 x (List.mem_of_mem_getLast? hx)
    have hy2 := List.mem_of_mem_head? hy
    rcases List.mem_append.1 hy2 with hmem | hmem
    · have := productPhaseEmits_ge_30 totalProducts y hmem
      omega
    · have : y = 90 ∨ y = 100 := by simpa using hmem
      rcases this with rfl | rfl <;> omega

/-- C6 (code bug): a start request is rejected unchanged whenever the
status string differs from `"Idle"` — but the handler's check runs before
the spawned worker's first status write, so from the idle initial state two
start requests arriving in that window are both accepted, and once both
workers perform their `"Running"` write two jobs run concurrently,
violating the claimed at-most-one-Running invariant. -/
theorem C6_start_race :
    (∀ s : ServerState, s.status ≠ "Idle" →
      (start_scraper s).2 = .alreadyRunning ∧ (start_scraper s).1 = s) ∧
    (start_scraper initState).2 = .started ∧
    (start_scraper (step initState .startReq)).2 = .started ∧
    (runEvents [.startReq, .startReq, .beginJob, .beginJob]).runningWorkers = 2 ∧
    (runEvents [.startReq, .startReq, .beginJob, .beginJob]).status = "Running" := by
  refine ⟨?_, by decide, by decide, by decide, by decide⟩
  intro s hne
  constructor <;> simp [start_scraper, hne]

/-- C6 witness: a state whose status reads `"Running"` with one running
worker rejects a start request and stays unchanged. -/
theorem C6_start_race_witness :
    (start_scraper { status := "Running", pendingWorkers := 0, runningWorkers := 1 }).2 =
      StartResponse.alreadyRunning ∧
    (start_scraper { status := "Running", pendingWorkers := 0, runningWorkers := 1 }).1 =
      { status := "Running", pendingWorkers := 0, runningWorkers := 1 } :=
  C6_start_race.1 { status := "Running", pendingWorkers := 0, runningWorkers := 1 } (by decide)

end Scraper
